import Mathlib

/-
Verification of the docking-data-pipeline repository.

The pipeline (src/script/main.py, src/script/plots.py) fetches compound
properties from a web API, computes a LogP descriptor, draws a random
docking score, stores rows in a SQLite table, exports them to a CSV file,
and renders a dashboard from the CSV.

Shallow embedding conventions:
* External effects (HTTP replies, RDKit parsing, random draws) are passed
  in explicitly as oracle values; the Python functions become pure Lean
  functions of those oracles.
* Python floats are modelled as rationals.  `round(x, n)` is modelled by
  `pyRound x n` below using Mathlib's `round` (round-half-up); Python
  rounds floats half-to-even, but every property proved here depends only
  on monotonicity of rounding, exactness at multiples of `10 ^ (-n)`, and
  the bound `|pyRound x n - x| ≤ 1 / (2 * 10 ^ n)`, which hold for either
  tie-breaking rule.
* The SQLite table is modelled as a list of rows in insertion order
  (append-only, exactly how `save_result_to_db` uses it); the CSV file is
  modelled as a list of cell rows.
-/

/-- Model of Python `round(x, n)` on the rationals: scale, round to the
nearest integer, unscale. -/
def pyRound (x : ℚ) (n : Nat) : ℚ := ((round (x * 10 ^ n) : ℤ) : ℚ) / 10 ^ n

/-- Python truthiness test `not x` for a value that is either a string or
`None`: true exactly when the value is `None` or the empty string.  Used by
`get_compound_data` in the `if not smiles_string:` fallbacks. -/
def pyFalsy : Option String → Bool
  | none => true
  | some s => s.isEmpty

/-- One record of the `Properties` list of a PubChem reply, as read by
`get_compound_data` via `first_result.get(...)`: each field is `none` when
the key is absent.  `MolecularWeight` is kept as the raw JSON value. -/
structure PropRecord where
  IsomericSMILES : Option String
  CanonicalSMILES : Option String
  SMILES : Option String
  MolecularWeight : Option String
deriving DecidableEq

/-- Outcome of evaluating `response.json()['PropertyTable']['Properties'][0]`
on a 200 reply: either some exception (JSON decode error, `KeyError`,
`IndexError` on an empty list) — caught by the function's `except:` — or the
first record. -/
inductive BodyParse where
  | throws
  | ok (first_result : PropRecord)
deriving DecidableEq

/-- Outcome of `requests.get(...)` as observed by `get_compound_data`:
either an exception before a reply arrives (connection error, timeout), or
a reply with a status code and a body. -/
inductive HttpOutcome where
  | exn
  | reply (status_code : Nat) (body : BodyParse)
deriving DecidableEq

/-- Embedding of `get_compound_data` (src/script/main.py lines 57-109) as a
function of the HTTP outcome.  Returns the `(smiles_string, molecular_weight)`
pair.  The three `first_result.get` fallbacks use Python truthiness
(`pyFalsy`), so an empty string also falls through to the next key. -/
def get_compound_data (response : HttpOutcome) : Option String × Option String :=
  match response with
  | HttpOutcome.reply status_code body =>
      if status_code = 200 then
        match body with
        | BodyParse.ok first_result =>
            let s0 := first_result.IsomericSMILES
            let s1 := if pyFalsy s0 then first_result.CanonicalSMILES else s0
            let s2 := if pyFalsy s1 then first_result.SMILES else s1
            (s2, first_result.MolecularWeight)
        | BodyParse.throws => (none, none)
      else (none, none)
  | HttpOutcome.exn => (none, none)

/-- Outcome of the RDKit calls in `calculate_logp` for a given SMILES
string: an exception somewhere in `MolFromSmiles`/`MolLogP`, a `None`
molecule (parse failure), or a parsed molecule with its `MolLogP` value. -/
inductive MolParse where
  | exn
  | noMol
  | mol (logp : ℚ)

/-- Embedding of `calculate_logp` (src/script/main.py lines 112-133) as a
function of the SMILES argument and an oracle `chem` giving the RDKit
outcome for each string.  Mirrors the source: `None` input returns `0.0`
immediately; a parsed molecule returns `round(MolLogP, 4)`; a `None`
molecule or an exception falls through to `return 0.0`. -/
def calculate_logp (smiles_string : Option String) (chem : String → MolParse) : ℚ :=
  match smiles_string with
  | none => 0
  | some s =>
      match chem s with
      | MolParse.mol v => pyRound v 4
      | MolParse.noMol => 0
      | MolParse.exn => 0

/-- Embedding of `run_docking_simulation` (src/script/main.py lines
136-156) as a function of the category label and the two uniform draws:
`random_score` is the `random.uniform(-6.0, -10.0)` value and `bonus` the
`random.uniform(1.0, 2.0)` value (drawn by the code only in the
`"Synthetic"` branch; passing it unconditionally is harmless since the
other branch ignores it). -/
def run_docking_simulation (drug_type : String) (random_score bonus : ℚ) : ℚ :=
  if drug_type = "Synthetic" then pyRound (random_score - bonus) 2
  else pyRound random_score 2

/-- The five natural substrates (the later, complete assignment in the
source; the earlier two-element assignment at the top of main.py is
immediately overwritten). -/
def NATURAL_SUBSTRATES : List String :=
  ["Dihydrofolate", "Folic Acid", "Tetrahydrofolate", "7,8-Dihydrobiopterin", "L-Methionine"]

/-- The five synthetic inhibitors. -/
def SYNTHETIC_INHIBITORS : List String :=
  ["Methotrexate", "Pemetrexed", "Aminopterin", "Trimethoprim", "Pyrimethamine"]

/-- The combined work list built by the two loops at the start of `main`:
each natural name tagged `"Natural"`, then each synthetic name tagged
`"Synthetic"`. -/
def all_items_to_process : List (String × String) :=
  NATURAL_SUBSTRATES.map (fun name => (name, "Natural")) ++
    SYNTHETIC_INHIBITORS.map (fun name => (name, "Synthetic"))

/-- One row of the `screening_results` table (schema in `create_database`):
`(name, type, smiles, mw, logp, score)`.  `smiles` and `mw` are nullable;
`main` only ever inserts a non-`None` smiles.  `mw` keeps the raw fetched
value. -/
structure Row where
  name : String
  type : String
  smiles : Option String
  mw : Option String
  logp : ℚ
  score : ℚ
deriving DecidableEq

/-- The external world for one loop iteration of `main`: the HTTP outcome
for the item's fetch, the RDKit oracle, and the two uniform draws.  Keyed
by drug name in `runMainLoop`; the ten registry names are distinct, so this
loses no generality. -/
structure ItemEnv where
  http : HttpOutcome
  chem : String → MolParse
  random_score : ℚ
  bonus : ℚ

/-- The body of `main`'s loop for one item: fetch, and if the SMILES string
is not `None` (an empty string passes this test), compute LogP and the
score and build the row passed to `save_result_to_db`; otherwise skip. -/
def processItem (env : ItemEnv) (drug_name drug_type : String) : Option Row :=
  match get_compound_data env.http with
  | (some smiles_string, mw) =>
      some { name := drug_name, type := drug_type,
             smiles := some smiles_string, mw := mw,
             logp := calculate_logp (some smiles_string) env.chem,
             score := run_docking_simulation drug_type env.random_score env.bonus }
  | (none, _) => none

/-- The loop of `main` (src/script/main.py lines 247-275) over the work
list, threading the store: each successfully fetched item appends exactly
one row (the `save_result_to_db` insert). -/
def runMainLoop (envs : String → ItemEnv) : List (String × String) → List Row → List Row
  | [], store => store
  | (drug_name, drug_type) :: rest, store =>
      match processItem (envs drug_name) drug_name drug_type with
      | some row => runMainLoop envs rest (store ++ [row])
      | none => runMainLoop envs rest store

/-- The Result Store at the end of `main`, starting from the empty table
created by `create_database` (drop-if-exists then create). -/
def main_store (envs : String → ItemEnv) : List Row :=
  runMainLoop envs all_items_to_process []

/-- One CSV cell: a plain text cell, a nullable text cell, or a numeric
cell. -/
inductive Cell where
  | str (s : String)
  | optStr (o : Option String)
  | num (q : ℚ)

/-- The cells `csv.writer.writerow` receives for one stored row, in the
table's column order (`SELECT *` returns the schema order). -/
def rowCells (r : Row) : List Cell :=
  [Cell.str r.name, Cell.str r.type, Cell.optStr r.smiles, Cell.optStr r.mw,
   Cell.num r.logp, Cell.num r.score]

/-- Embedding of `export_to_csv` (src/script/main.py lines 202-223): read
all rows of the store in insertion order and write the fixed header row
followed by one data row per stored row. -/
def export_to_csv (store : List Row) : List (List Cell) :=
  [Cell.str "Name", Cell.str "Type", Cell.str "SMILES",
   Cell.str "Molecular Weight", Cell.str "LogP", Cell.str "Score"]
    :: store.map rowCells

/-- Outcome of `pd.read_csv('natvssynt.csv')` in `create_dashboard`:
either some exception (missing file, malformed contents), or the loaded
table. -/
inductive LoadOutcome where
  | failed
  | loaded (table : List (List Cell))

/-- Observable result of `create_dashboard` (src/script/plots.py): either
the stage aborted (the `except` branch prints the error and `return`s, so
no file is written and no exception propagates), or it wrote the dashboard
image.  The drawing itself is not modelled; only the load-failure contract
is at issue. -/
inductive DashOutput where
  | aborted
  | wrote (file : String)
deriving DecidableEq

/-- Embedding of `create_dashboard`'s load stage (src/script/plots.py
lines 5-12 and 101-103). -/
def create_dashboard (load : LoadOutcome) : DashOutput :=
  match load with
  | LoadOutcome.failed => DashOutput.aborted
  | LoadOutcome.loaded _ => DashOutput.wrote "dashboard.png"

/-- Did the fetch for this item yield a non-`None` SMILES string (the
condition under which `main` stores a row)? -/
def fetchOk (env : ItemEnv) : Bool := ((get_compound_data env.http).1).isSome

/-- Number of store rows carrying a given name and category. -/
def countRows (rows : List Row) (n c : String) : Nat :=
  (rows.filter (fun r => r.name == n && r.type == c)).length

/-- Number of store rows carrying a given name. -/
def countName (rows : List Row) (n : String) : Nat :=
  (rows.filter (fun r => r.name == n)).length

/-- Does a CSV row's first cell hold the given name? -/
def cellIsName (n : String) : List Cell → Bool
  | Cell.str m :: _ => m == n
  | _ => false

/-- Number of data rows (header excluded) of an exported file whose first
cell is the given name. -/
def countCsvName (file : List (List Cell)) (n : String) : Nat :=
  ((file.drop 1).filter (cellIsName n)).length

/-- A concrete test environment: every fetch replies 200 with a record
whose IsomericSMILES is `"C"`, RDKit fails to parse, and the draws are
integers. -/
def envs0 : String → ItemEnv := fun _ =>
  { http := HttpOutcome.reply 200 (BodyParse.ok
      { IsomericSMILES := some "C", CanonicalSMILES := none,
        SMILES := none, MolecularWeight := some "16.04" }),
    chem := fun _ => MolParse.noMol,
    random_score := -8, bonus := 1 }

/-- Rounding is monotone (holds for any tie-breaking rule). -/
theorem pyRound_mono (n : Nat) {a b : ℚ} (h : a ≤ b) : pyRound a n ≤ pyRound b n := by
  unfold pyRound
  have hp : (0:ℚ) < 10 ^ n := by positivity
  have hr : round (a * 10 ^ n) ≤ round (b * 10 ^ n) := by
    rw [round_eq, round_eq]
    exact Int.floor_le_floor (by nlinarith)
  have hrq : ((round (a * 10 ^ n) : ℤ) : ℚ) ≤ ((round (b * 10 ^ n) : ℤ) : ℚ) := by
    exact_mod_cast hr
  exact div_le_div_of_nonneg_right hrq hp.le

/-- Rounding is exact on integers. -/
theorem pyRound_intCast (k : ℤ) (n : Nat) : pyRound (k : ℚ) n = k := by
  unfold pyRound
  rw [show ((k:ℚ) * 10 ^ n) = (((k * 10 ^ n : ℤ)) : ℚ) by push_cast; ring]
  rw [round_intCast]
  push_cast
  rw [mul_div_assoc, div_self (by positivity), mul_one]

/-- Rounding moves a value up by at most half a unit in the last place. -/
theorem pyRound_le (x : ℚ) (n : Nat) : pyRound x n ≤ x + 1 / (2 * 10 ^ n) := by
  unfold pyRound
  have hp : (0:ℚ) < 10 ^ n := by positivity
  have hr : ((round (x * 10 ^ n) : ℤ) : ℚ) ≤ x * 10 ^ n + 1 / 2 := by
    rw [round_eq]
    have hf := Int.floor_le (x * 10 ^ n + 1 / 2)
    push_cast at hf ⊢
    linarith
  rw [div_le_iff₀ hp]
  calc ((round (x * 10 ^ n) : ℤ) : ℚ) ≤ x * 10 ^ n + 1 / 2 := hr
    _ = (x + 1 / (2 * 10 ^ n)) * 10 ^ n := by field_simp; ring

/-- Appending rows distributes over the name-and-category count. -/
theorem countRows_append (a b : List Row) (n c : String) :
    countRows (a ++ b) n c = countRows a n c + countRows b n c := by
  simp [countRows, List.filter_append]

/-- Appending rows distributes over the name count. -/
theorem countName_append (a b : List Row) (n : String) :
    countName (a ++ b) n = countName a n + countName b n := by
  simp [countName, List.filter_append]

/-- The loop result starting from a non-empty store is the store followed
by the rows the loop itself produces. -/
theorem runMainLoop_eq_append (envs : String → ItemEnv) (items : List (String × String)) :
    ∀ store : List Row, runMainLoop envs items store = store ++ runMainLoop envs items [] := by
  induction items with
  | nil => intro store; simp [runMainLoop]
  | cons it rest ih =>
      intro store
      obtain ⟨drug_name, drug_type⟩ := it
      cases hp : processItem (envs drug_name) drug_name drug_type with
      | none => simp only [runMainLoop, hp]; exact ih store
      | some row =>
          simp only [runMainLoop, hp]
          rw [ih (store ++ [row]), ih ([] ++ [row])]
          simp

/-- The loop stores a row for an item exactly when its fetch yielded a
non-`None` SMILES string. -/
theorem processItem_isSome (env : ItemEnv) (dn dt : String) :
    (processItem env dn dt).isSome = fetchOk env := by
  unfold processItem fetchOk
  rcases hg : get_compound_data env.http with ⟨s, mw⟩
  cases s <;> simp [hg]

/-- A stored row carries the item's name and category and a non-`None`
SMILES string. -/
theorem processItem_some (env : ItemEnv) (dn dt : String) (row : Row)
    (h : processItem env dn dt = some row) :
    row.name = dn ∧ row.type = dt ∧ row.smiles ≠ none := by
  rcases hg : get_compound_data env.http with ⟨s, mw⟩
  unfold processItem at h
  rw [hg] at h
  cases s with
  | none => simp at h
  | some str =>
      simp only [Option.some.injEq] at h
      subst h
      exact ⟨rfl, rfl, by simp⟩

/-- How many rows with a given name and category the loop stores: one per
work-list occurrence of that name-category pair whose fetch succeeded. -/
theorem countRows_runMainLoop (envs : String → ItemEnv) (items : List (String × String))
    (n c : String) :
    countRows (runMainLoop envs items []) n c =
      ((items.filter (fun it => it.1 == n && it.2 == c)).map
        (fun it => if fetchOk (envs it.1) then 1 else 0)).sum := by
  induction items with
  | nil => simp [runMainLoop, countRows]
  | cons it rest ih =>
      obtain ⟨dn, dt⟩ := it
      cases hp : processItem (envs dn) dn dt with
      | none =>
          have hok : fetchOk (envs dn) = false := by
            rw [← processItem_isSome (envs dn) dn dt, hp]; rfl
          simp only [runMainLoop, hp]
          rw [ih, List.filter_cons]
          by_cases hm : (dn == n && dt == c) = true
          · simp [hm, hok]
          · simp [hm]
      | some row =>
          obtain ⟨hname, htype, hsm⟩ := processItem_some (envs dn) dn dt row hp
          have hok : fetchOk (envs dn) = true := by
            rw [← processItem_isSome (envs dn) dn dt, hp]; rfl
          simp only [runMainLoop, hp]
          rw [runMainLoop_eq_append envs rest ([] ++ [row]), List.nil_append,
            List.singleton_append, show (row :: runMainLoop envs rest []) = [row] ++ runMainLoop envs rest [] from rfl,
            countRows_append, ih, List.filter_cons]
          by_cases hm : (dn == n && dt == c) = true
          · have hrow : (row.name == n && row.type == c) = true := by
              rw [hname, htype]; exact hm
            simp [countRows, hrow, hm, hok]
          · have hrow : (row.name == n && row.type == c) = false := by
              rw [hname, htype]; simpa using hm
            simp [countRows, hrow, hm]

/-- How many rows with a given name the loop stores. -/
theorem countName_runMainLoop (envs : String → ItemEnv) (items : List (String × String))
    (n : String) :
    countName (runMainLoop envs items []) n =
      ((items.filter (fun it => it.1 == n)).map
        (fun it => if fetchOk (envs it.1) then 1 else 0)).sum := by
  induction items with
  | nil => simp [runMainLoop, countName]
  | cons it rest ih =>
      obtain ⟨dn, dt⟩ := it
      cases hp : processItem (envs dn) dn dt with
      | none =>
          have hok : fetchOk (envs dn) = false := by
            rw [← processItem_isSome (envs dn) dn dt, hp]; rfl
          simp only [runMainLoop, hp]
          rw [ih, List.filter_cons]
          by_cases hm : (dn == n) = true
          · simp [hm, hok]
          · simp [hm]
      | some row =>
          obtain ⟨hname, htype, hsm⟩ := processItem_some (envs dn) dn dt row hp
          have hok : fetchOk (envs dn) = true := by
            rw [← processItem_isSome (envs dn) dn dt, hp]; rfl
          simp only [runMainLoop, hp]
          rw [runMainLoop_eq_append envs rest ([] ++ [row]), List.nil_append,
            List.singleton_append, show (row :: runMainLoop envs rest []) = [row] ++ runMainLoop envs rest [] from rfl,
            countName_append, ih, List.filter_cons]
          by_cases hm : (dn == n) = true
          · have hrow : (row.name == n) = true := by rw [hname]; exact hm
            simp [countName, hrow, hm, hok]
          · have hrow : (row.name == n) = false := by rw [hname]; simpa using hm
            simp [countName, hrow, hm]

/-- Every row the loop stores belongs to a work-list item and has a
non-`None` SMILES string. -/
theorem mem_runMainLoop (envs : String → ItemEnv) (items : List (String × String)) :
    ∀ r ∈ runMainLoop envs items [], (r.name, r.type) ∈ items ∧ r.smiles ≠ none := by
  induction items with
  | nil => simp [runMainLoop]
  | cons it rest ih =>
      obtain ⟨dn, dt⟩ := it
      intro r hr
      cases hp : processItem (envs dn) dn dt with
      | none =>
          simp only [runMainLoop, hp] at hr
          exact ⟨List.mem_cons_of_mem _ (ih r hr).1, (ih r hr).2⟩
      | some row =>
          simp only [runMainLoop, hp] at hr
          rw [runMainLoop_eq_append envs rest ([] ++ [row]), List.nil_append,
            List.singleton_append] at hr
          rcases List.mem_cons.mp hr with hre | hrm
          · obtain ⟨hname, htype, hsm⟩ := processItem_some (envs dn) dn dt row hp
            subst hre
            exact ⟨by rw [hname, htype]; exact List.mem_cons_self _ _, hsm⟩
          · exact ⟨List.mem_cons_of_mem _ (ih r hrm).1, (ih r hrm).2⟩

/-- The store holds one row per work-list item whose fetch succeeded. -/
theorem length_runMainLoop (envs : String → ItemEnv) (items : List (String × String)) :
    (runMainLoop envs items []).length =
      (items.filter (fun it => fetchOk (envs it.1))).length := by
  induction items with
  | nil => simp [runMainLoop]
  | cons it rest ih =>
      obtain ⟨dn, dt⟩ := it
      cases hp : processItem (envs dn) dn dt with
      | none =>
          have hok : fetchOk (envs dn) = false := by
            rw [← processItem_isSome (envs dn) dn dt, hp]; rfl
          simp only [runMainLoop, hp]
          rw [ih, List.filter_cons]
          simp [hok]
      | some row =>
          have hok : fetchOk (envs dn) = true := by
            rw [← processItem_isSome (envs dn) dn dt, hp]; rfl
          simp only [runMainLoop, hp]
          rw [runMainLoop_eq_append envs rest ([] ++ [row]), List.nil_append,
            List.singleton_append, List.filter_cons]
          simp [ih, hok]

/-- Counting a name among the exported data rows equals counting it in the
store. -/
theorem countCsvName_export (store : List Row) (n : String) :
    countCsvName (export_to_csv store) n = countName store n := by
  show ((store.map rowCells).filter (cellIsName n)).length
      = (store.filter (fun r => r.name == n)).length
  induction store with
  | nil => rfl
  | cons r rest ih =>
      simp only [List.map_cons, List.filter_cons]
      have hc : cellIsName n (rowCells r) = (r.name == n) := rfl
      rw [hc]
      by_cases h : (r.name == n) = true
      · simp [h, ih]
      · simp [h, ih]

/-- Claim C3: for every input, on a non-200 reply, on any parse failure,
on any network/timeout error, or on any exception, `get_compound_data`
returns `(none, none)`.  Non-raising and the absence of retry or
partial-success state are reflected in the embedding by
`get_compound_data` being a total function evaluated exactly once per
item, with all exceptional paths (`HttpOutcome.exn`, `BodyParse.throws`)
mapped to the same null pair. -/
theorem fetch_failure_null (status_code : Nat) (body : BodyParse)
    (hs : status_code ≠ 200) :
    get_compound_data HttpOutcome.exn = (none, none) ∧
    get_compound_data (HttpOutcome.reply status_code body) = (none, none) ∧
    get_compound_data (HttpOutcome.reply 200 BodyParse.throws) = (none, none) := by
  refine ⟨rfl, ?_, rfl⟩
  simp [get_compound_data, hs]

/-- Witness for C3 at status code 404. -/
theorem fetch_failure_null_witness :
    get_compound_data HttpOutcome.exn = (none, none) ∧
    get_compound_data (HttpOutcome.reply 404 BodyParse.throws) = (none, none) ∧
    get_compound_data (HttpOutcome.reply 200 BodyParse.throws) = (none, none) :=
  fetch_failure_null 404 BodyParse.throws (by decide)

/-- Counterexample for C4: on a 200 reply whose first record has no SMILES
key under any of the three names but does have `MolecularWeight`,
`get_compound_data` returns a null encoding together with a non-null mass,
so the fetched pair is not "both null" on this missing-field condition. -/
theorem fetched_pair_mixed_cex :
    (get_compound_data (HttpOutcome.reply 200 (BodyParse.ok
        { IsomericSMILES := none, CanonicalSMILES := none,
          SMILES := none, MolecularWeight := some "454.44" }))).1 = none ∧
    (get_compound_data (HttpOutcome.reply 200 (BodyParse.ok
        { IsomericSMILES := none, CanonicalSMILES := none,
          SMILES := none, MolecularWeight := some "454.44" }))).2 = some "454.44" :=
  ⟨rfl, rfl⟩

/-- Claim C4 as amended: on any failure (exception, non-200 status, body
parse failure) both components are null, but on a successful reply the two
components are extracted independently, so a missing-field condition can
leave exactly one component null. -/
theorem fetched_pair_amended (status_code : Nat) (body : BodyParse)
    (hs : status_code ≠ 200) :
    get_compound_data HttpOutcome.exn = (none, none) ∧
    get_compound_data (HttpOutcome.reply status_code body) = (none, none) ∧
    get_compound_data (HttpOutcome.reply 200 BodyParse.throws) = (none, none) ∧
    ∃ pr : PropRecord,
      (get_compound_data (HttpOutcome.reply 200 (BodyParse.ok pr))).1 = none ∧
      (get_compound_data (HttpOutcome.reply 200 (BodyParse.ok pr))).2 ≠ none := by
  refine ⟨rfl, ?_, rfl, ?_⟩
  · simp [get_compound_data, hs]
  · exact ⟨{ IsomericSMILES := none, CanonicalSMILES := none,
             SMILES := none, MolecularWeight := some "0" }, rfl, by decide⟩

/-- Witness for the amended C4 at status code 500. -/
theorem fetched_pair_amended_witness :
    get_compound_data (HttpOutcome.reply 500 BodyParse.throws) = (none, none) :=
  (fetched_pair_amended 500 BodyParse.throws (by decide)).2.1

/-- Claim C7: on a 200 reply, `get_compound_data` reads the first record
and selects the encoding by trying `IsomericSMILES`, then
`CanonicalSMILES`, then `SMILES`, the first truthy (non-empty, non-null)
value winning, while the mass is the record's `MolecularWeight` field
independently of the encoding lookup. -/
theorem fetch_success_extraction (first_result : PropRecord) :
    ((pyFalsy first_result.IsomericSMILES = false →
        (get_compound_data (HttpOutcome.reply 200 (BodyParse.ok first_result))).1
          = first_result.IsomericSMILES) ∧
     (pyFalsy first_result.IsomericSMILES = true →
        pyFalsy first_result.CanonicalSMILES = false →
        (get_compound_data (HttpOutcome.reply 200 (BodyParse.ok first_result))).1
          = first_result.CanonicalSMILES) ∧
     (pyFalsy first_result.IsomericSMILES = true →
        pyFalsy first_result.CanonicalSMILES = true →
        (get_compound_data (HttpOutcome.reply 200 (BodyParse.ok first_result))).1
          = first_result.SMILES)) ∧
    (get_compound_data (HttpOutcome.reply 200 (BodyParse.ok first_result))).2
      = first_result.MolecularWeight := by
  refine ⟨⟨?_, ?_, ?_⟩, rfl⟩
  · intro h1; simp [get_compound_data, h1]
  · intro h1 h2; simp [get_compound_data, h1, h2]
  · intro h1 h2; simp [get_compound_data, h1, h2]

/-- Witness for C7: a record with a non-empty `IsomericSMILES`. -/
theorem fetch_success_extraction_witness :
    (get_compound_data (HttpOutcome.reply 200 (BodyParse.ok
        { IsomericSMILES := some "C1=CC=CC=C1", CanonicalSMILES := none,
          SMILES := none, MolecularWeight := some "78.11" }))).1
      = some "C1=CC=CC=C1" :=
  (fetch_success_extraction
    { IsomericSMILES := some "C1=CC=CC=C1", CanonicalSMILES := none,
      SMILES := none, MolecularWeight := some "78.11" }).1.1 (by decide)

/-- Claim C6: `calculate_logp` returns `0` on a null encoding, returns `0`
without propagating the error when RDKit raises or yields a null molecule,
and returns the descriptor rounded to 4 decimal digits on a successful
parse. -/
theorem calculate_logp_contract (chem : String → MolParse) (s : String) (v : ℚ) :
    calculate_logp none chem = 0 ∧
    (chem s = MolParse.exn → calculate_logp (some s) chem = 0) ∧
    (chem s = MolParse.noMol → calculate_logp (some s) chem = 0) ∧
    (chem s = MolParse.mol v → calculate_logp (some s) chem = pyRound v 4) := by
  refine ⟨rfl, ?_, ?_, ?_⟩ <;> intro h <;> simp [calculate_logp, h]

/-- Witness for C6: a parse oracle that always succeeds with value 1/2. -/
theorem calculate_logp_contract_witness :
    calculate_logp (some "CCO") (fun _ => MolParse.mol (1/2)) = pyRound (1/2) 4 :=
  (calculate_logp_contract (fun _ => MolParse.mol (1/2)) "CCO" (1/2)).2.2.2 rfl

/-- Claim C8: when loading the exported table fails, `create_dashboard`
aborts the stage — `DashOutput.aborted` carries no file, so no dashboard
image is produced, and the embedding is a total function (the `except`
branch returns instead of re-raising). -/
theorem dashboard_load_failure_aborts :
    create_dashboard LoadOutcome.failed = DashOutput.aborted := rfl

/-- Claim C5: with the base draw in [-10, -6] and the Synthetic bonus draw
in [1, 2], the rounded score lies in [-12, -6] for `"Synthetic"` and in
[-10, -6] for `"Natural"`, and the Synthetic adjustment makes the score
strictly lower than the base draw. -/
theorem score_range_and_bias (r b : ℚ)
    (h1 : -10 ≤ r) (h2 : r ≤ -6) (h3 : 1 ≤ b) (h4 : b ≤ 2) :
    (-12 ≤ run_docking_simulation "Synthetic" r b ∧
      run_docking_simulation "Synthetic" r b ≤ -6) ∧
    (-10 ≤ run_docking_simulation "Natural" r b ∧
      run_docking_simulation "Natural" r b ≤ -6) ∧
    run_docking_simulation "Synthetic" r b < r := by
  have hS : run_docking_simulation "Synthetic" r b = pyRound (r - b) 2 := by
    simp [run_docking_simulation]
  have hN : run_docking_simulation "Natural" r b = pyRound r 2 := by
    simp [run_docking_simulation]
  have h12 : pyRound (-12 : ℚ) 2 = -12 := by
    have h := pyRound_intCast (-12) 2; norm_num at h; exact h
  have h10 : pyRound (-10 : ℚ) 2 = -10 := by
    have h := pyRound_intCast (-10) 2; norm_num at h; exact h
  have h6 : pyRound (-6 : ℚ) 2 = -6 := by
    have h := pyRound_intCast (-6) 2; norm_num at h; exact h
  refine ⟨⟨?_, ?_⟩, ⟨?_, ?_⟩, ?_⟩
  · rw [hS, ← h12]
    exact pyRound_mono 2 (by linarith)
  · rw [hS, ← h6]
    exact pyRound_mono 2 (by linarith)
  · rw [hN, ← h10]
    exact pyRound_mono 2 h1
  · rw [hN, ← h6]
    exact pyRound_mono 2 h2
  · rw [hS]
    have hle := pyRound_le (r - b) 2
    have h200 : (1 : ℚ) / (2 * 10 ^ 2) = 1 / 200 := by norm_num
    rw [h200] at hle
    linarith

/-- Witness for C5 at base draw -8 and bonus draw 1. -/
theorem score_range_and_bias_witness :
    (-12 ≤ run_docking_simulation "Synthetic" (-8) 1 ∧
      run_docking_simulation "Synthetic" (-8) 1 ≤ -6) ∧
    (-10 ≤ run_docking_simulation "Natural" (-8) 1 ∧
      run_docking_simulation "Natural" (-8) 1 ≤ -6) ∧
    run_docking_simulation "Synthetic" (-8) 1 < -8 :=
  score_range_and_bias (-8) 1 (by decide) (by decide) (by decide) (by decide)

/-- Claim C10: for any category label other than the exact string
`"Synthetic"`, `run_docking_simulation` applies no adjustment: it returns
the rounded base draw, equals the `"Natural"` score on the same draws, and
lies in [-10, -6] when the base draw does. -/
theorem nonSynthetic_score (t : String) (r b : ℚ) (ht : t ≠ "Synthetic")
    (h1 : -10 ≤ r) (h2 : r ≤ -6) :
    run_docking_simulation t r b = pyRound r 2 ∧
    run_docking_simulation t r b = run_docking_simulation "Natural" r b ∧
    -10 ≤ run_docking_simulation t r b ∧ run_docking_simulation t r b ≤ -6 := by
  have hT : run_docking_simulation t r b = pyRound r 2 := by
    simp [run_docking_simulation, ht]
  have hN : run_docking_simulation "Natural" r b = pyRound r 2 := by
    simp [run_docking_simulation]
  have h10 : pyRound (-10 : ℚ) 2 = -10 := by
    have h := pyRound_intCast (-10) 2; norm_num at h; exact h
  have h6 : pyRound (-6 : ℚ) 2 = -6 := by
    have h := pyRound_intCast (-6) 2; norm_num at h; exact h
  refine ⟨hT, hT.trans hN.symm, ?_, ?_⟩
  · rw [hT, ← h10]
    exact pyRound_mono 2 h1
  · rw [hT, ← h6]
    exact pyRound_mono 2 h2

/-- Witness for C10 with the category label `"Peptide"`. -/
theorem nonSynthetic_score_witness :
    run_docking_simulation "Peptide" (-7) 1 = pyRound (-7) 2 ∧
    run_docking_simulation "Peptide" (-7) 1 = run_docking_simulation "Natural" (-7) 1 ∧
    -10 ≤ run_docking_simulation "Peptide" (-7) 1 ∧
      run_docking_simulation "Peptide" (-7) 1 ≤ -6 :=
  nonSynthetic_score "Peptide" (-7) 1 (by decide) (by decide) (by decide)

/-- Claim C2: export round-trip.  For every store state, the exported file
is the header followed by exactly one data row per stored row; each data
row is the stored row's six cells in the table's column order; positions
are preserved (row `i` of the data rows is row `i` of the store); and the
data-row count equals the store's row count. -/
theorem export_roundtrip (store : List Row) :
    (∀ r : Row, rowCells r =
      [Cell.str r.name, Cell.str r.type, Cell.optStr r.smiles, Cell.optStr r.mw,
       Cell.num r.logp, Cell.num r.score]) ∧
    (export_to_csv store).drop 1 = store.map rowCells ∧
    (∀ i : Nat, ((export_to_csv store).drop 1)[i]? = (store[i]?).map rowCells) ∧
    ((export_to_csv store).drop 1).length = store.length := by
  refine ⟨fun _ => rfl, rfl, fun i => ?_, ?_⟩
  · show (store.map rowCells)[i]? = (store[i]?).map rowCells
    exact List.getElem?_map ..
  · show (store.map rowCells).length = store.length
    exact List.length_map ..

/-- Claim C9: the exported file always begins with the fixed 6-column
header literal `Name, Type, SMILES, Molecular Weight, LogP, Score`, and
for the pipeline's store it is followed by one data row per screened
compound that had data (one per work-list item whose fetch yielded a
non-null encoding). -/
theorem export_header_and_rowcount (envs : String → ItemEnv) (store : List Row) :
    (export_to_csv store).head? = some
      [Cell.str "Name", Cell.str "Type", Cell.str "SMILES",
       Cell.str "Molecular Weight", Cell.str "LogP", Cell.str "Score"] ∧
    ((export_to_csv (main_store envs)).drop 1).length =
      (all_items_to_process.filter (fun it => fetchOk (envs it.1))).length := by
  refine ⟨rfl, ?_⟩
  show ((main_store envs).map rowCells).length = _
  rw [List.length_map, main_store, length_runMainLoop]

/-- Claim C1: pipeline invariants over an arbitrary environment.  (1) For
every item of the combined registry whose fetch returns a non-null
encoding, the final store holds exactly one row with that item's name and
category.  (2) For every item whose fetch returns a null encoding, no row
with that item's name appears in the store or among the exported data
rows.  (3) Every exported data row is the cell row of a stored row whose
name and category come from the original registry and whose stored
encoding is non-null. -/
theorem pipeline_store_invariants (envs : String → ItemEnv) :
    (∀ n c : String, (n, c) ∈ all_items_to_process →
        (get_compound_data (envs n).http).1 ≠ none →
        countRows (main_store envs) n c = 1) ∧
    (∀ n c : String, (n, c) ∈ all_items_to_process →
        (get_compound_data (envs n).http).1 = none →
        countName (main_store envs) n = 0 ∧
        countCsvName (export_to_csv (main_store envs)) n = 0) ∧
    (∀ cells ∈ (export_to_csv (main_store envs)).drop 1,
        ∃ r, r ∈ main_store envs ∧ cells = rowCells r ∧
          (r.name, r.type) ∈ all_items_to_process ∧ r.smiles ≠ none) := by
  refine ⟨?_, ?_, ?_⟩
  · intro n c hmem hfetch
    have hok : fetchOk (envs n) = true := Option.isSome_iff_ne_none.mpr hfetch
    rw [main_store, countRows_runMainLoop]
    simp only [all_items_to_process, NATURAL_SUBSTRATES, SYNTHETIC_INHIBITORS,
      List.map_cons, List.map_nil, List.cons_append, List.nil_append,
      List.mem_cons, List.not_mem_nil, or_false, Prod.mk.injEq] at hmem
    rcases hmem with h | h | h | h | h | h | h | h | h | h <;>
      obtain ⟨rfl, rfl⟩ := h <;>
      simp [all_items_to_process, NATURAL_SUBSTRATES, SYNTHETIC_INHIBITORS, hok]
  · intro n c hmem hfetch
    have hok : fetchOk (envs n) = false := by
      simp [fetchOk, hfetch]
    have hname : countName (main_store envs) n = 0 := by
      rw [main_store, countName_runMainLoop]
      simp only [all_items_to_process, NATURAL_SUBSTRATES, SYNTHETIC_INHIBITORS,
        List.map_cons, List.map_nil, List.cons_append, List.nil_append,
        List.mem_cons, List.not_mem_nil, or_false, Prod.mk.injEq] at hmem
      rcases hmem with h | h | h | h | h | h | h | h | h | h <;>
        obtain ⟨rfl, rfl⟩ := h <;>
        simp [all_items_to_process, NATURAL_SUBSTRATES, SYNTHETIC_INHIBITORS, hok]
    exact ⟨hname, by rw [countCsvName_export]; exact hname⟩
  · intro cells hcells
    have hmap : cells ∈ (main_store envs).map rowCells := hcells
    obtain ⟨r, hr, hrc⟩ := List.mem_map.mp hmap
    obtain ⟨hmem, hsm⟩ := mem_runMainLoop envs all_items_to_process r hr
    exact ⟨r, hr, hrc.symm, hmem, hsm⟩

/-- Witness for C1: in the all-succeed environment `envs0`, the store
holds exactly one Folic Acid row. -/
theorem pipeline_store_invariants_witness :
    countRows (main_store envs0) "Folic Acid" "Natural" = 1 :=
  (pipeline_store_invariants envs0).1 "Folic Acid" "Natural" (by decide) (by decide)
